import Mathlib

/-
Verification of the document-comparison orchestration in
`src/document_comparator.py` (class `DocumentComparator`).

The program is a thin orchestration layer over a remote generative-AI
service: it uploads two PDF byte buffers, then issues one generation call
over the two returned artifact handles together with a fixed instructional
prompt, and returns the model's text verbatim.

Shallow embedding: the remote service (the `genai` SDK client) is modelled
as an environment `GeminiEnv` of two functions, one per remote operation.
Each method of the class is translated to a Lean function that returns an
`Outcome`: the method's result (`Except AppError α`), the list of remote
calls it attempted in order (`List RemoteCall`), and the process
environment-variable state after the call (`OsEnv`, which carries the
`GEMINI_API_KEY` entry). Errors raised by the remote boundary are tagged
by the operation that raised them, matching the spec's error taxonomy;
the orchestration code itself never catches or transforms them.
-/

namespace AuditAI

/-- A raw byte buffer (Python `bytes`), one natural number per byte. -/
abbrev Bytes := List Nat

/-- The `config` dictionary passed to `client.files.upload`
(`dict(mime_type=..., display_name=...)`, source line 48). -/
structure UploadConfig where
  mime_type : String
  display_name : String
  deriving DecidableEq

/-- Opaque file object returned by the remote upload
(`uploaded_file`, source line 46): an artifact handle. -/
structure UploadedFile where
  id : Nat
  deriving DecidableEq

/-- One element of the `contents` list of a generation call
(source line 113): either an uploaded-file handle or a prompt string. -/
inductive ContentItem where
  | file (f : UploadedFile)
  | text (s : String)
  deriving DecidableEq

/-- A remote (network) operation attempted by the program, with its full
payload: either an artifact upload or a content-generation request. -/
inductive RemoteCall where
  | upload (file_data : Bytes) (config : UploadConfig)
  | generateContent (model : String) (contents : List ContentItem)
  deriving DecidableEq

/-- The error taxonomy of the spec: a missing credential, a failed remote
upload, or a failed remote generation call. The `String` payload is the
opaque error raised by the remote boundary, carried unmodified. -/
inductive AppError where
  | configurationError
  | uploadError (e : String)
  | generationError (e : String)
  deriving DecidableEq

/-- The remote service boundary: what each remote operation would return
if attempted. A mocked remote layer is one concrete value of this type. -/
structure GeminiEnv where
  uploadResult : Bytes → UploadConfig → Except String UploadedFile
  generateResult : String → List ContentItem → Except String String

/-- Process environment-variable state: the `GEMINI_API_KEY` entry
(`none` when the variable is unset). -/
structure OsEnv where
  gemini_api_key : Option String
  deriving DecidableEq

/-- The constructed remote client (`genai.Client`), holding the resolved
credential (source line 30). -/
structure Client where
  api_key : String
  deriving DecidableEq

/-- The `DocumentComparator` object: its client and its fixed model name
(source lines 30-31). -/
structure DocumentComparator where
  client : Client
  model_name : String
  deriving DecidableEq

/-- Python `a or b` for an optional string `a`: `None` and the empty
string are falsy, so they fall through to `b` (source line 30). -/
def pyOrString (a b : Option String) : Option String :=
  match a with
  | some s => if s = "" then b else some s
  | none => b

/-- Modelled from the spec: construction of the third-party remote client
(`genai.Client(api_key=...)`), whose code is outside this repository.
Per the spec, when the credential is absent the construction fails with a
configuration error before any network call; otherwise the client simply
stores the key. -/
def genaiClientNew (key : Option String) : Except AppError Client :=
  match key with
  | none => .error .configurationError
  | some k => if k = "" then .error .configurationError else .ok { api_key := k }

/-- `DocumentComparator.__init__` (source lines 20-31): when `api_key` is
truthy it is written into the `GEMINI_API_KEY` environment entry; the
client is then built from `api_key or os.getenv("GEMINI_API_KEY")`, and
the model name is fixed. Returns the construction result together with
the environment-variable state after initialization. -/
def DocumentComparator.init (api_key : Option String) (os : OsEnv) :
    Except AppError DocumentComparator × OsEnv :=
  let os' : OsEnv :=
    match api_key with
    | some k => if k = "" then os else { gemini_api_key := some k }
    | none => os
  match genaiClientNew (pyOrString api_key os'.gemini_api_key) with
  | .error e => (.error e, os')
  | .ok cl => (.ok { client := cl, model_name := "gemini-3-flash-preview" }, os')

/-- The observable outcome of one method call: its result, the remote
calls it attempted in order, and the environment-variable state after. -/
structure Outcome (α : Type) where
  res : Except AppError α
  calls : List RemoteCall
  osAfter : OsEnv

/-- `DocumentComparator.upload_pdf` (source lines 33-51): wraps the bytes
and attempts the remote upload with mime type `"application/pdf"` and the
given display name; a remote failure surfaces as an upload error. -/
def DocumentComparator.upload_pdf (_c : DocumentComparator) (env : GeminiEnv) (os : OsEnv)
    (file_data : Bytes) (display_name : String) : Outcome UploadedFile :=
  let config : UploadConfig := { mime_type := "application/pdf", display_name := display_name }
  match env.uploadResult file_data config with
  | .ok f =>
      { res := .ok f, calls := [RemoteCall.upload file_data config], osAfter := os }
  | .error e =>
      { res := .error (.uploadError e), calls := [RemoteCall.upload file_data config],
        osAfter := os }

/-- The fixed instructional prompt of `compare_documents`
(source lines 65-110), verbatim. -/
def comparisonPrompt : String :=
  "You are a compliance auditor tasked with comparing a Policy document against a Standard Operating Procedure (SOP) document.\n\n**Your Task:**\n1. Analyze both documents thoroughly\n2. Identify all key requirements, procedures, and guidelines in the SOP\n3. Check if the Policy document adheres to each SOP requirement\n4. Generate a comprehensive compliance report\n\n**Report Structure:**\n\n## Executive Summary\nProvide a brief overview of compliance status (compliant, partially compliant, or non-compliant)\n\n## Detailed Analysis\n\n### 1. Adherence Assessment\nFor each major section/requirement in the SOP:\n- **SOP Requirement:** [Describe the requirement]\n- **Policy Implementation:** [How the policy addresses it]\n- **Status:** ✅ Compliant / ⚠️ Partially Compliant / ❌ Non-Compliant\n- **Gap Analysis:** [Describe any gaps or deviations]\n\n### 2. Missing Elements\nList any SOP requirements that are not addressed in the Policy\n\n### 3. Conflicting Information\nIdentify any contradictions between the SOP and Policy\n\n### 4. Additional Policy Elements\nNote any elements in the Policy that go beyond SOP requirements\n\n## Recommendations\n\n### Priority 1 - Critical Issues\n[Issues that must be addressed immediately]\n\n### Priority 2 - Important Issues  \n[Issues that should be addressed soon]\n\n### Priority 3 - Suggestions for Improvement\n[Nice-to-have improvements]\n\n## Compliance Score\nProvide an overall compliance percentage and rating\n\nPlease be thorough, specific, and cite exact sections/pages when possible."

/-- The `contents` list sent by the generation call (source line 113):
the two file handles followed by the fixed prompt. -/
def contentsFor (sop_file policy_file : UploadedFile) : List ContentItem :=
  [ContentItem.file sop_file, ContentItem.file policy_file, ContentItem.text comparisonPrompt]

/-- `DocumentComparator.compare_documents` (source lines 53-116): issues
one generation call with `[sop_file, policy_file, prompt]` to the stored
model name and returns the response text verbatim; a remote failure
surfaces as a generation error. -/
def DocumentComparator.compare_documents (c : DocumentComparator) (env : GeminiEnv)
    (os : OsEnv) (sop_file policy_file : UploadedFile) : Outcome String :=
  match env.generateResult c.model_name (contentsFor sop_file policy_file) with
  | .ok t =>
      { res := .ok t,
        calls := [RemoteCall.generateContent c.model_name (contentsFor sop_file policy_file)],
        osAfter := os }
  | .error e =>
      { res := .error (.generationError e),
        calls := [RemoteCall.generateContent c.model_name (contentsFor sop_file policy_file)],
        osAfter := os }

/-- `DocumentComparator.generate_report` (source lines 118-136): uploads
the SOP buffer, then the policy buffer, then compares; any failure
propagates immediately, aborting the remaining steps. -/
def DocumentComparator.generate_report (c : DocumentComparator) (env : GeminiEnv)
    (os : OsEnv) (sop_data policy_data : Bytes) : Outcome String :=
  let o1 := c.upload_pdf env os sop_data "SOP_Document"
  match o1.res with
  | .error e => { res := .error e, calls := o1.calls, osAfter := o1.osAfter }
  | .ok sop_file =>
    let o2 := c.upload_pdf env o1.osAfter policy_data "Policy_Document"
    match o2.res with
    | .error e => { res := .error e, calls := o1.calls ++ o2.calls, osAfter := o2.osAfter }
    | .ok policy_file =>
      let o3 := c.compare_documents env o2.osAfter sop_file policy_file
      { res := o3.res, calls := o1.calls ++ o2.calls ++ o3.calls, osAfter := o3.osAfter }

/-- The caller-facing entry point of the system: construct a
`DocumentComparator` (reading the credential) and run `generate_report`.
Construction failure yields no remote call at all. -/
def runGenerateReport (api_key : Option String) (env : GeminiEnv) (os : OsEnv)
    (sop_data policy_data : Bytes) : Outcome String :=
  match DocumentComparator.init api_key os with
  | (.error e, os') => { res := .error e, calls := [], osAfter := os' }
  | (.ok c, os') => c.generate_report env os' sop_data policy_data

/-- The upload configuration of the first (SOP) upload in
`generate_report` (source line 130). -/
def sopConfig : UploadConfig :=
  { mime_type := "application/pdf", display_name := "SOP_Document" }

/-- The upload configuration of the second (policy) upload in
`generate_report` (source line 131). -/
def policyConfig : UploadConfig :=
  { mime_type := "application/pdf", display_name := "Policy_Document" }

/-- Whether a remote call is an artifact upload. -/
def RemoteCall.isUpload : RemoteCall → Bool
  | .upload _ _ => true
  | .generateContent _ _ => false

/-- Whether a remote call is a content-generation request. -/
def RemoteCall.isGenerate : RemoteCall → Bool
  | .upload _ _ => false
  | .generateContent _ _ => true

/-- The number of upload calls in a remote-call trace. -/
def uploadCount (l : List RemoteCall) : Nat :=
  (l.filter RemoteCall.isUpload).length

/-- The number of generation calls in a remote-call trace. -/
def generateCount (l : List RemoteCall) : Nat :=
  (l.filter RemoteCall.isGenerate).length

/-- The text component of a content item, when it has one. -/
def ContentItem.textOf : ContentItem → Option String
  | .file _ => none
  | .text s => some s

/-- All prompt strings sent across the generation calls of a trace, in
order. -/
def promptTexts : List RemoteCall → List String
  | [] => []
  | RemoteCall.generateContent _ cs :: rest => cs.filterMap ContentItem.textOf ++ promptTexts rest
  | RemoteCall.upload _ _ :: rest => promptTexts rest

/-- A mocked remote layer: every upload succeeds (handle 0 for the SOP
display name, handle 1 otherwise) and every generation call returns the
text "MOCK REPORT". -/
def mockEnv : GeminiEnv where
  uploadResult := fun _ cfg =>
    .ok { id := if cfg.display_name = "SOP_Document" then 0 else 1 }
  generateResult := fun _ _ => .ok "MOCK REPORT"

/-- A mocked remote layer whose uploads succeed and whose generation call
succeeds with the empty text. -/
def emptyReportEnv : GeminiEnv where
  uploadResult := fun _ cfg =>
    .ok { id := if cfg.display_name = "SOP_Document" then 0 else 1 }
  generateResult := fun _ _ => .ok ""

/-- A mocked remote layer whose SOP upload is rejected. -/
def failFirstEnv : GeminiEnv where
  uploadResult := fun _ cfg =>
    if cfg.display_name = "SOP_Document" then .error "upload rejected" else .ok { id := 1 }
  generateResult := fun _ _ => .ok "should never be produced"

/-- A mocked remote layer whose uploads succeed and whose generation call
fails. -/
def failGenEnv : GeminiEnv where
  uploadResult := fun _ cfg =>
    .ok { id := if cfg.display_name = "SOP_Document" then 0 else 1 }
  generateResult := fun _ _ => .error "quota exceeded"

/-- A concrete comparator as built by a successful initialization. -/
def comparator0 : DocumentComparator :=
  { client := { api_key := "test-key" }, model_name := "gemini-3-flash-preview" }

/-- A concrete environment-variable state with the credential set. -/
def os0 : OsEnv := { gemini_api_key := some "test-key" }

/-- The bytes of the string "%PDF-1.4", a minimal valid PDF header. -/
def sopBytes : Bytes := [37, 80, 68, 70, 45, 49, 46, 52]

/-- A second byte buffer with a PDF header. -/
def policyBytes : Bytes := [37, 80, 68, 70, 45, 49, 46, 53]

/-- C1: for every pair of input byte buffers, `generate_report` uploads
the first buffer with display name "SOP_Document", then the second with
display name "Policy_Document", then makes exactly one generation call
whose contents hold the two returned handles in that order, and returns
the comparison result. -/
theorem generate_report_call_sequence
    (c : DocumentComparator) (env : GeminiEnv) (os : OsEnv)
    (sop_data policy_data : Bytes) (f1 f2 : UploadedFile)
    (h1 : env.uploadResult sop_data sopConfig = .ok f1)
    (h2 : env.uploadResult policy_data policyConfig = .ok f2) :
    (c.generate_report env os sop_data policy_data).calls =
      [RemoteCall.upload sop_data sopConfig,
       RemoteCall.upload policy_data policyConfig,
       RemoteCall.generateContent c.model_name (contentsFor f1 f2)] ∧
    (c.generate_report env os sop_data policy_data).res =
      (c.compare_documents env os f1 f2).res := by
  simp only [sopConfig, policyConfig] at h1 h2
  cases hg : env.generateResult c.model_name (contentsFor f1 f2) <;>
    simp [DocumentComparator.generate_report, DocumentComparator.upload_pdf,
      DocumentComparator.compare_documents, sopConfig, policyConfig, h1, h2, hg]

/-- Closed instance of C1 on the mocked remote layer. -/
theorem generate_report_call_sequence_witness :
    mockEnv.uploadResult sopBytes sopConfig = .ok { id := 0 } ∧
    mockEnv.uploadResult policyBytes policyConfig = .ok { id := 1 } ∧
    ((comparator0.generate_report mockEnv os0 sopBytes policyBytes).calls =
      [RemoteCall.upload sopBytes sopConfig,
       RemoteCall.upload policyBytes policyConfig,
       RemoteCall.generateContent comparator0.model_name
         (contentsFor { id := 0 } { id := 1 })] ∧
     (comparator0.generate_report mockEnv os0 sopBytes policyBytes).res =
      (comparator0.compare_documents mockEnv os0 { id := 0 } { id := 1 }).res) :=
  ⟨rfl, rfl,
    generate_report_call_sequence comparator0 mockEnv os0 sopBytes policyBytes
      { id := 0 } { id := 1 } rfl rfl⟩

/-- C3: if the first (SOP) upload fails, `generate_report` fails
immediately with that upload's error: the only remote call attempted is
the first upload (no second upload, no generation call), and no result
text is produced. -/
theorem generate_report_short_circuit
    (c : DocumentComparator) (env : GeminiEnv) (os : OsEnv)
    (sop_data policy_data : Bytes) (e : String)
    (h1 : env.uploadResult sop_data sopConfig = .error e) :
    (c.generate_report env os sop_data policy_data).res = .error (.uploadError e) ∧
    (c.generate_report env os sop_data policy_data).calls =
      [RemoteCall.upload sop_data sopConfig] ∧
    ∀ t, (c.generate_report env os sop_data policy_data).res ≠ .ok t := by
  simp only [sopConfig] at h1
  simp [DocumentComparator.generate_report, DocumentComparator.upload_pdf,
    sopConfig, h1]

/-- Closed instance of C3 on the remote layer that rejects the SOP
upload. -/
theorem generate_report_short_circuit_witness :
    failFirstEnv.uploadResult sopBytes sopConfig = .error "upload rejected" ∧
    ((comparator0.generate_report failFirstEnv os0 sopBytes policyBytes).res =
        .error (.uploadError "upload rejected") ∧
     (comparator0.generate_report failFirstEnv os0 sopBytes policyBytes).calls =
        [RemoteCall.upload sopBytes sopConfig] ∧
     ∀ t, (comparator0.generate_report failFirstEnv os0 sopBytes policyBytes).res ≠ .ok t) :=
  ⟨rfl,
    generate_report_short_circuit comparator0 failFirstEnv os0 sopBytes policyBytes
      "upload rejected" rfl⟩

/-- C5: with no `api_key` argument and no `GEMINI_API_KEY` environment
value, the entry point fails with a configuration error before any
remote call is attempted, leaving the environment unchanged. -/
theorem missing_credential_configuration_error
    (env : GeminiEnv) (os : OsEnv) (sop_data policy_data : Bytes)
    (h : os.gemini_api_key = none) :
    (runGenerateReport none env os sop_data policy_data).res =
      .error .configurationError ∧
    (runGenerateReport none env os sop_data policy_data).calls = [] ∧
    (runGenerateReport none env os sop_data policy_data).osAfter = os := by
  simp [runGenerateReport, DocumentComparator.init, pyOrString, genaiClientNew, h]

/-- Closed instance of C5 with the credential absent. -/
theorem missing_credential_configuration_error_witness :
    OsEnv.gemini_api_key { gemini_api_key := none } = none ∧
    ((runGenerateReport none mockEnv { gemini_api_key := none } sopBytes policyBytes).res =
        .error .configurationError ∧
     (runGenerateReport none mockEnv { gemini_api_key := none } sopBytes policyBytes).calls = [] ∧
     (runGenerateReport none mockEnv { gemini_api_key := none } sopBytes policyBytes).osAfter =
        { gemini_api_key := none }) :=
  ⟨rfl,
    missing_credential_configuration_error mockEnv { gemini_api_key := none }
      sopBytes policyBytes rfl⟩

/-- C9: no operation of the system writes to the credential state after
initialization: `upload_pdf`, `compare_documents` and `generate_report`
all leave the environment-variable state exactly as they found it. -/
theorem credential_state_readonly
    (c : DocumentComparator) (env : GeminiEnv) (os : OsEnv)
    (file_data sop_data policy_data : Bytes) (dn : String)
    (a b : UploadedFile) :
    (c.upload_pdf env os file_data dn).osAfter = os ∧
    (c.compare_documents env os a b).osAfter = os ∧
    (c.generate_report env os sop_data policy_data).osAfter = os := by
  refine ⟨?_, ?_, ?_⟩
  · cases hr : env.uploadResult file_data
        { mime_type := "application/pdf", display_name := dn } <;>
      simp [DocumentComparator.upload_pdf, hr]
  · cases hg : env.generateResult c.model_name (contentsFor a b) <;>
      simp [DocumentComparator.compare_documents, hg]
  · cases h1 : env.uploadResult sop_data
        { mime_type := "application/pdf", display_name := "SOP_Document" } with
    | error e1 =>
        simp [DocumentComparator.generate_report, DocumentComparator.upload_pdf, h1]
    | ok f1 =>
        cases h2 : env.uploadResult policy_data
            { mime_type := "application/pdf", display_name := "Policy_Document" } with
        | error e2 =>
            simp [DocumentComparator.generate_report, DocumentComparator.upload_pdf,
              h1, h2]
        | ok f2 =>
            cases hg : env.generateResult c.model_name
                [ContentItem.file f1, ContentItem.file f2,
                 ContentItem.text comparisonPrompt] <;>
              simp [DocumentComparator.generate_report, DocumentComparator.upload_pdf,
                DocumentComparator.compare_documents, contentsFor, h1, h2, hg]

/-- C10: for every byte buffer, `upload_pdf` attempts the remote upload
with mime type "application/pdf" and the given display name, with no
local inspection of the bytes: the call is always attempted, and the
result is exactly the remote outcome (success with the remote handle, or
that upload failure), so no buffer is rejected locally. -/
theorem upload_pdf_no_local_validation
    (c : DocumentComparator) (env : GeminiEnv) (os : OsEnv)
    (file_data : Bytes) (dn : String) :
    (c.upload_pdf env os file_data dn).calls =
      [RemoteCall.upload file_data
        { mime_type := "application/pdf", display_name := dn }] ∧
    (∀ f, (c.upload_pdf env os file_data dn).res = .ok f ↔
      env.uploadResult file_data
        { mime_type := "application/pdf", display_name := dn } = .ok f) ∧
    (∀ e, (c.upload_pdf env os file_data dn).res = .error (.uploadError e) ↔
      env.uploadResult file_data
        { mime_type := "application/pdf", display_name := dn } = .error e) := by
  cases hr : env.uploadResult file_data
      { mime_type := "application/pdf", display_name := dn } <;>
    simp [DocumentComparator.upload_pdf, hr]

/-- C2: `compare_documents` sends exactly the list `[a, b, prompt]` as
the contents of a single generation call to the model name stored by
initialization (always "gemini-3-flash-preview"), and returns the text
of the model's response verbatim; with a mocked remote layer whose
generation call returns "MOCK REPORT", `generate_report` on any two
buffers returns exactly "MOCK REPORT". -/
theorem compare_documents_payload
    (c : DocumentComparator) (env : GeminiEnv) (os : OsEnv) (a b : UploadedFile) :
    (c.compare_documents env os a b).calls =
      [RemoteCall.generateContent c.model_name
        [ContentItem.file a, ContentItem.file b, ContentItem.text comparisonPrompt]] ∧
    (∀ t, env.generateResult c.model_name (contentsFor a b) = .ok t →
      (c.compare_documents env os a b).res = .ok t) ∧
    (∀ key osA cA osB, DocumentComparator.init key osA = (.ok cA, osB) →
      cA.model_name = "gemini-3-flash-preview") ∧
    (∀ sop_data policy_data : Bytes,
      (∀ d cfg, ∃ f, env.uploadResult d cfg = .ok f) →
      (∀ m cs, env.generateResult m cs = .ok "MOCK REPORT") →
      (c.generate_report env os sop_data policy_data).res = .ok "MOCK REPORT") := by
  refine ⟨?_, ?_, ?_, ?_⟩
  · cases hg : env.generateResult c.model_name
        [ContentItem.file a, ContentItem.file b, ContentItem.text comparisonPrompt] <;>
      simp [DocumentComparator.compare_documents, contentsFor, hg]
  · intro t hg
    simp only [contentsFor] at hg
    simp [DocumentComparator.compare_documents, contentsFor, hg]
  · intro key osA cA osB h
    simp only [DocumentComparator.init] at h
    rcases hk : genaiClientNew (pyOrString key
        (match key with
          | some k => if k = "" then osA else { gemini_api_key := some k }
          | none => osA).gemini_api_key) with e | cl <;>
      rw [hk] at h
    · exact absurd (congrArg Prod.fst h) (by simp)
    · have := congrArg Prod.fst h
      simp only at this
      cases this
      rfl
  · intro sop_data policy_data hu hg
    obtain ⟨g1, hg1⟩ := hu sop_data
      { mime_type := "application/pdf", display_name := "SOP_Document" }
    obtain ⟨g2, hg2⟩ := hu policy_data
      { mime_type := "application/pdf", display_name := "Policy_Document" }
    simp [DocumentComparator.generate_report, DocumentComparator.upload_pdf,
      DocumentComparator.compare_documents, hg1, hg2, hg]

/-- Closed instance of C2's mocked scenario, obtained from the theorem. -/
theorem compare_documents_payload_witness :
    (comparator0.generate_report mockEnv os0 sopBytes policyBytes).res =
      .ok "MOCK REPORT" :=
  (compare_documents_payload comparator0 mockEnv os0 { id := 0 } { id := 1 }).2.2.2
    sopBytes policyBytes
    (fun _ cfg => ⟨{ id := if cfg.display_name = "SOP_Document" then 0 else 1 }, rfl⟩)
    (fun _ _ => rfl)

/-- C4: every failure of `generate_report` is a typed error naming the
failing stage, with the remote error carried unmodified and never caught
or retried: the result is never a configuration error; it is an upload
error exactly when one of the two uploads failed with that error; it is
a generation error exactly when both uploads succeeded and the
generation call failed with that error (hence no text is returned); and
no remote call is ever repeated. -/
theorem generate_report_error_taxonomy
    (c : DocumentComparator) (env : GeminiEnv) (os : OsEnv)
    (sop_data policy_data : Bytes) :
    (c.generate_report env os sop_data policy_data).res ≠
      .error .configurationError ∧
    (∀ e, (c.generate_report env os sop_data policy_data).res =
        .error (.uploadError e) ↔
      (env.uploadResult sop_data sopConfig = .error e ∨
        ((∃ f1, env.uploadResult sop_data sopConfig = .ok f1) ∧
          env.uploadResult policy_data policyConfig = .error e))) ∧
    (∀ e, (c.generate_report env os sop_data policy_data).res =
        .error (.generationError e) ↔
      (∃ f1 f2, env.uploadResult sop_data sopConfig = .ok f1 ∧
        env.uploadResult policy_data policyConfig = .ok f2 ∧
        env.generateResult c.model_name (contentsFor f1 f2) = .error e)) ∧
    (c.generate_report env os sop_data policy_data).calls.Nodup ∧
    (c.generate_report env os sop_data policy_data).calls.length ≤ 3 := by
  simp only [sopConfig, policyConfig]
  cases h1 : env.uploadResult sop_data
      { mime_type := "application/pdf", display_name := "SOP_Document" } with
  | error e1 =>
      simp [DocumentComparator.generate_report, DocumentComparator.upload_pdf,
        DocumentComparator.compare_documents, h1]
  | ok f1 =>
      cases h2 : env.uploadResult policy_data
          { mime_type := "application/pdf", display_name := "Policy_Document" } with
      | error e2 =>
          simp [DocumentComparator.generate_report, DocumentComparator.upload_pdf,
            DocumentComparator.compare_documents, h1, h2]
      | ok f2 =>
          cases hg : env.generateResult c.model_name
              [ContentItem.file f1, ContentItem.file f2,
               ContentItem.text comparisonPrompt] with
          | error ge =>
              simp [DocumentComparator.generate_report, DocumentComparator.upload_pdf,
                DocumentComparator.compare_documents, contentsFor, h1, h2, hg]
          | ok t =>
              simp [DocumentComparator.generate_report, DocumentComparator.upload_pdf,
                DocumentComparator.compare_documents, contentsFor, h1, h2, hg]

/-- C6 as stated is false on the code: with a remote layer on which both
uploads succeed and the generation call succeeds returning the empty
text, `generate_report` on two valid PDF byte buffers returns the empty
string, not a non-empty one. -/
theorem generate_report_nonempty_counterexample :
    (∃ f1, emptyReportEnv.uploadResult sopBytes sopConfig = .ok f1) ∧
    (∃ f2, emptyReportEnv.uploadResult policyBytes policyConfig = .ok f2) ∧
    (∃ t, emptyReportEnv.generateResult comparator0.model_name
        (contentsFor { id := 0 } { id := 1 }) = .ok t) ∧
    (comparator0.generate_report emptyReportEnv os0 sopBytes policyBytes).res = .ok "" ∧
    ¬ (∃ s, (comparator0.generate_report emptyReportEnv os0 sopBytes policyBytes).res =
        .ok s ∧ s ≠ "") := by
  refine ⟨⟨{ id := 0 }, rfl⟩, ⟨{ id := 1 }, rfl⟩, ⟨"", rfl⟩, rfl, ?_⟩
  rintro ⟨s, hs, hne⟩
  have : Except.ok (ε := AppError) "" = Except.ok s := hs
  exact hne (Except.ok.inj this).symm

/-- C6 amended: when both uploads succeed and the generation call
succeeds with a non-empty text, `generate_report` returns that text,
which is a non-empty string (the result is non-empty exactly when the
remote response text is). -/
theorem generate_report_nonempty_amended
    (c : DocumentComparator) (env : GeminiEnv) (os : OsEnv)
    (sop_data policy_data : Bytes) (f1 f2 : UploadedFile) (t : String)
    (h1 : env.uploadResult sop_data sopConfig = .ok f1)
    (h2 : env.uploadResult policy_data policyConfig = .ok f2)
    (hg : env.generateResult c.model_name (contentsFor f1 f2) = .ok t)
    (ht : t ≠ "") :
    ∃ s, (c.generate_report env os sop_data policy_data).res = .ok s ∧ s ≠ "" := by
  refine ⟨t, ?_, ht⟩
  simp only [sopConfig, policyConfig] at h1 h2
  simp [DocumentComparator.generate_report, DocumentComparator.upload_pdf,
    DocumentComparator.compare_documents, h1, h2, hg]

/-- Closed instance of the amended C6 on the mocked remote layer. -/
theorem generate_report_nonempty_amended_witness :
    mockEnv.uploadResult sopBytes sopConfig = .ok { id := 0 } ∧
    mockEnv.uploadResult policyBytes policyConfig = .ok { id := 1 } ∧
    mockEnv.generateResult comparator0.model_name
      (contentsFor { id := 0 } { id := 1 }) = .ok "MOCK REPORT" ∧
    "MOCK REPORT" ≠ "" ∧
    (∃ s, (comparator0.generate_report mockEnv os0 sopBytes policyBytes).res =
      .ok s ∧ s ≠ "") :=
  ⟨rfl, rfl, rfl, by decide,
    generate_report_nonempty_amended comparator0 mockEnv os0 sopBytes policyBytes
      { id := 0 } { id := 1 } "MOCK REPORT" rfl rfl rfl (by decide)⟩

/-- C7: in every execution of `generate_report` at most two uploads and
at most one generation call are attempted, and a report is produced only
when exactly two artifact handles were created, one per input buffer,
both before the single generation call. -/
theorem generate_report_two_handles_invariant
    (c : DocumentComparator) (env : GeminiEnv) (os : OsEnv)
    (sop_data policy_data : Bytes) :
    uploadCount (c.generate_report env os sop_data policy_data).calls ≤ 2 ∧
    generateCount (c.generate_report env os sop_data policy_data).calls ≤ 1 ∧
    ∀ t, (c.generate_report env os sop_data policy_data).res = .ok t →
      uploadCount (c.generate_report env os sop_data policy_data).calls = 2 ∧
      ∃ f1 f2, env.uploadResult sop_data sopConfig = .ok f1 ∧
        env.uploadResult policy_data policyConfig = .ok f2 ∧
        (c.generate_report env os sop_data policy_data).calls =
          [RemoteCall.upload sop_data sopConfig,
           RemoteCall.upload policy_data policyConfig,
           RemoteCall.generateContent c.model_name (contentsFor f1 f2)] := by
  simp only [sopConfig, policyConfig]
  cases h1 : env.uploadResult sop_data
      { mime_type := "application/pdf", display_name := "SOP_Document" } with
  | error e1 =>
      simp [DocumentComparator.generate_report, DocumentComparator.upload_pdf,
        DocumentComparator.compare_documents, uploadCount, generateCount,
        RemoteCall.isUpload, RemoteCall.isGenerate, h1]
  | ok f1 =>
      cases h2 : env.uploadResult policy_data
          { mime_type := "application/pdf", display_name := "Policy_Document" } with
      | error e2 =>
          simp [DocumentComparator.generate_report, DocumentComparator.upload_pdf,
            DocumentComparator.compare_documents, uploadCount, generateCount,
            RemoteCall.isUpload, RemoteCall.isGenerate, h1, h2]
      | ok f2 =>
          cases hg : env.generateResult c.model_name
              [ContentItem.file f1, ContentItem.file f2,
               ContentItem.text comparisonPrompt] with
          | error ge =>
              simp [DocumentComparator.generate_report, DocumentComparator.upload_pdf,
                DocumentComparator.compare_documents, uploadCount, generateCount,
                RemoteCall.isUpload, RemoteCall.isGenerate, contentsFor, h1, h2, hg]
          | ok t =>
              simp [DocumentComparator.generate_report, DocumentComparator.upload_pdf,
                DocumentComparator.compare_documents, uploadCount, generateCount,
                RemoteCall.isUpload, RemoteCall.isGenerate, contentsFor, h1, h2, hg]

/-- C8: the instructional prompt sent to the generation call is a fixed
constant: across any two invocations of `compare_documents`, with any
comparators, remote layers, handles and states, the prompt strings sent
are identical, namely exactly the one fixed prompt. -/
theorem compare_documents_fixed_prompt
    (c c' : DocumentComparator) (env env' : GeminiEnv) (os os' : OsEnv)
    (a b a' b' : UploadedFile) :
    promptTexts (c.compare_documents env os a b).calls = [comparisonPrompt] ∧
    promptTexts (c.compare_documents env os a b).calls =
      promptTexts (c'.compare_documents env' os' a' b').calls := by
  have key : ∀ (d : DocumentComparator) (e : GeminiEnv) (o : OsEnv)
      (x y : UploadedFile),
      promptTexts (d.compare_documents e o x y).calls = [comparisonPrompt] := by
    intro d e o x y
    cases hg : e.generateResult d.model_name
        [ContentItem.file x, ContentItem.file y, ContentItem.text comparisonPrompt] <;>
      simp [DocumentComparator.compare_documents, promptTexts, contentsFor,
        ContentItem.textOf, hg]
  rw [key, key]
  exact ⟨rfl, rfl⟩

end AuditAI
